import Mathlib

/-!
Verification development for the WaveWatchr_Excel repository.

The repository's observation records are Python dicts mapping string keys to
values that are either `None`, a string, or a float.  We embed a dict as an
association list over an explicit value type, numeric values as exact
rationals, and each source function as a computable Lean definition that
mirrors its Python control flow.  Python exceptions that a function lets
escape are modelled with `Except`; exceptions it catches internally are
folded into `Option` results exactly where the `try/except` sits in the
source.  Network fetches are outside the model: functions that read a feed
take the already-fetched response, split into lines, as input.
-/

namespace WaveWatchr

/-- Value stored in an observation dict: Python `None`, a string, or a
float (embedded as an exact rational). -/
inductive Val where
  | none
  | str (s : String)
  | num (q : ℚ)
deriving DecidableEq, Repr

/-- An observation record: a Python dict, embedded as an association list
with the leftmost binding for a key the authoritative one. -/
abbrev Row := List (String × Val)

/-- Strip leading and trailing whitespace from a character list. -/
def trimChars (cs : List Char) : List Char :=
  ((cs.dropWhile Char.isWhitespace).reverse.dropWhile Char.isWhitespace).reverse

/-- Numeric value of an all-digit, non-empty character list; `none`
otherwise. -/
def digitsVal? (cs : List Char) : Option ℕ :=
  if cs ≠ [] ∧ cs.all Char.isDigit then
    some (cs.foldl (fun a c => 10 * a + (c.toNat - 48)) 0)
  else Option.none

/-- Python `float(s)` on a decimal string literal: optional sign, then
digits with at most one decimal point ("1", "1.5", ".5", "1." all parse;
"MM", "", "." do not).  Exponent and inf/nan literals never occur in the
feeds this program reads and are outside the model. -/
def parseFloat? (s : String) : Option ℚ :=
  let cs := trimChars s.data
  let (neg, body) :=
    match cs with
    | '-' :: rest => (true, rest)
    | '+' :: rest => (false, rest)
    | _ => (false, cs)
  let signed : ℤ → ℤ := fun n => if neg then -n else n
  let ip := body.takeWhile (fun c => c != '.')
  match body.dropWhile (fun c => c != '.') with
  | [] => (digitsVal? ip).map fun n => mkRat (signed n) 1
  | _ :: fp =>
    if fp.any (fun c => c = '.') then Option.none
    else if ip.isEmpty ∧ fp.isEmpty then Option.none
    else
      match (if ip.isEmpty then some 0 else digitsVal? ip),
            (if fp.isEmpty then some 0 else digitsVal? fp) with
      | some ni, some nf =>
        some (mkRat (signed (ni * 10 ^ fp.length + nf)) (10 ^ fp.length))
      | _, _ => Option.none

/-- Python `float(v)` applied to a dict value, as an `Option`: `some q`
when the conversion succeeds, `none` when it would raise (the callers in
`rules.py` catch that exception). -/
def pyfloat : Val → Option ℚ
  | .num q => some q
  | .str s => parseFloat? s
  | .none  => Option.none

/-- Python `int(s)` on a string: optional sign then decimal digits;
`none` models the `ValueError` raised otherwise. -/
def parseInt? (s : String) : Option ℤ :=
  let cs := trimChars s.data
  match cs with
  | '-' :: rest => (digitsVal? rest).map fun n => -(n : ℤ)
  | '+' :: rest => (digitsVal? rest).map fun n => (n : ℤ)
  | _ => (digitsVal? cs).map fun n => (n : ℤ)

/-- Truncation toward zero, the semantics of Python `int()` on a float. -/
def pytrunc (q : ℚ) : ℤ := if 0 ≤ q then ⌊q⌋ else ⌈q⌉

/-- Python `%` on reals: `a % b = a - b * floor (a / b)`, which lies in
`[0, b)` for `b > 0`. -/
def pymod (a b : ℚ) : ℚ := a - b * ⌊a / b⌋

/-- Round to the nearest integer with ties to the even integer: the
semantics of Python's built-in `round` on an exact value. -/
def roundHalfEven (q : ℚ) : ℤ :=
  if q - (⌊q⌋ : ℚ) < 1/2 then ⌊q⌋
  else if 1/2 < q - (⌊q⌋ : ℚ) then ⌊q⌋ + 1
  else if 2 ∣ ⌊q⌋ then ⌊q⌋ else ⌊q⌋ + 1

/-- Python `round(x, n)` on an exact value: round `x * 10^n` half-to-even,
then divide back.  CPython rounds the exact binary value of its float
argument; this is that semantics for arguments exactly representable in
binary, which covers every value the claims exercise. -/
def pyRound (n : ℕ) (q : ℚ) : ℚ := (roundHalfEven (q * 10 ^ n) : ℚ) / 10 ^ n

end WaveWatchr

namespace WaveWatchr.Rules
/-! Embedding of `src/rules.py`. -/

def DIR_MIN : ℚ := 25
def DIR_MAX : ℚ := 160

def LP_LONGBOARD_MIN_PERIOD_S : ℚ := 13
def LP_LONGBOARD_MIN_HEIGHT_FT : ℚ := mkRat 7 10

def LP_SHORTBOARD_MIN_PERIOD_S : ℚ := 13
def LP_SHORTBOARD_MIN_HEIGHT_FT : ℚ := mkRat 16 10

def SP_MIN_WVHT_FT : ℚ := 3

/-- `rules._get_num`: return the first available numeric value from the row
for any of the keys.  A key absent, bound to `None` or `""`, or whose value
fails float conversion is skipped and the next key is tried. -/
def get_num (row : Row) : List String → Option ℚ
  | [] => Option.none
  | k :: ks =>
    match row.lookup k with
    | Option.none => get_num row ks
    | some v =>
      if v = Val.none ∨ v = Val.str "" then get_num row ks
      else
        match pyfloat v with
        | some q => some q
        | Option.none => get_num row ks

/-- `rules._deg_in_window`: a `float(deg)` that raises (here: `deg` is
`None`) yields `False`; otherwise test `lo <= deg <= hi`. -/
def deg_in_window (deg : Option ℚ) (lo hi : ℚ) : Bool :=
  match deg with
  | Option.none => false
  | some d => decide (lo ≤ d) && decide (d ≤ hi)

/-- `rules._swell_period_s`: prefer real swell period, else dominant period. -/
def swell_period_s (row : Row) : Option ℚ :=
  get_num row ["swell_period_s", "SwP", "dominant_period_s", "DPD"]

/-- `rules._swell_height_ft`: prefer swell height, else total wave height. -/
def swell_height_ft (row : Row) : Option ℚ :=
  get_num row ["swell_height_ft", "SwH_ft", "SwH", "wave_height_ft", "WVHT_ft", "WVHT"]

/-- `rules._swell_dir_deg`: prefer swell or mean wave direction; fallback
to wind direction. -/
def swell_dir_deg (row : Row) : Option ℚ :=
  get_num row ["swell_dir_deg_true", "SwD_deg", "mean_wave_dir_deg", "MWD", "wind_dir_deg"]

/-- `rules._mean_wave_dir_deg`. -/
def mean_wave_dir_deg (row : Row) : Option ℚ :=
  get_num row ["mean_wave_dir_deg", "MWD", "wind_dir_deg"]

/-- `rules.is_long_period_longboard`. -/
def is_long_period_longboard (row : Row) : Bool :=
  let period_s := swell_period_s row
  let height_ft := swell_height_ft row
  let dir_deg := swell_dir_deg row
  (period_s.elim false fun p => decide (p ≥ LP_LONGBOARD_MIN_PERIOD_S))
    && (height_ft.elim false fun h => decide (h ≥ LP_LONGBOARD_MIN_HEIGHT_FT))
    && deg_in_window dir_deg DIR_MIN DIR_MAX

/-- `rules.is_long_period_shortboard`. -/
def is_long_period_shortboard (row : Row) : Bool :=
  let period_s := swell_period_s row
  let height_ft := swell_height_ft row
  let dir_deg := swell_dir_deg row
  (period_s.elim false fun p => decide (p ≥ LP_SHORTBOARD_MIN_PERIOD_S))
    && (height_ft.elim false fun h => decide (h ≥ LP_SHORTBOARD_MIN_HEIGHT_FT))
    && deg_in_window dir_deg DIR_MIN DIR_MAX

/-- `rules.is_short_period_all`: note the strict `>` against
`SP_MIN_WVHT_FT` in the source. -/
def is_short_period_all (row : Row) : Bool :=
  let wvht_ft := get_num row ["wave_height_ft", "WVHT_ft", "WVHT"]
  let dir_deg := mean_wave_dir_deg row
  (wvht_ft.elim false fun h => decide (h > SP_MIN_WVHT_FT))
    && deg_in_window dir_deg DIR_MIN DIR_MAX

/-- `rules.longboard_ok` (backward-compatible alias). -/
def longboard_ok (row : Row) : Bool := is_long_period_longboard row

/-- `rules.shortboard_ok` (backward-compatible alias). -/
def shortboard_ok (row : Row) : Bool := is_long_period_shortboard row

/-- `rules.short_period_ok` (backward-compatible alias). -/
def short_period_ok (row : Row) : Bool := is_short_period_all row

end WaveWatchr.Rules

namespace WaveWatchr.FetchAndWrite
/-! Embedding of `src/fetch_and_write.py`.  The two HTTP fetches are
outside the model: each feed enters as its response body already split
into lines (`r.text.splitlines()`). -/

open WaveWatchr

def RAW_TAB : String := "buoy_data"

/-- `ALERT_TABS`: rule name to alert tab title. -/
def ALERT_TABS : List (String × String) :=
  [("Longboard", "Longboard Alert"),
   ("Shortboard", "Shortboard Alert"),
   ("Short Period", "Short Period Alert")]

def DEFAULT_FIELDS : List String :=
  ["timestamp_utc", "station_id", "wave_height_ft", "dominant_period_s",
   "wind_dir_deg", "wind_speed_kt", "swell_height_ft", "swell_period_s",
   "wind_direction"]

/-- `FT_PER_M = 3.28084`. -/
def FT_PER_M : ℚ := mkRat 328084 100000

/-- Left-pad the decimal digits of a natural number to `w` places. -/
def padNat (w : ℕ) (n : ℕ) : String :=
  let s := toString n
  String.mk (List.replicate (w - s.length) '0') ++ s

/-- `to_iso_utc`: ISO-8601 rendering of the timestamp,
`YYYY-MM-DDTHH:MM:SS+00:00` with seconds zero.  The range validation that
`datetime` performs (raising on an out-of-range month, day, hour or
minute) is outside the model; the claims never exercise it. -/
def to_iso_utc (year mo dy hr mn : ℤ) : String :=
  padNat 4 year.toNat ++ "-" ++ padNat 2 mo.toNat ++ "-" ++ padNat 2 dy.toNat
    ++ "T" ++ padNat 2 hr.toNat ++ ":" ++ padNat 2 mn.toNat ++ ":00+00:00"

/-- The ordered 16-point compass list from `deg_to_cardinal`. -/
def DIRS : List String :=
  ["N", "NNE", "NE", "ENE", "E", "ESE", "SE", "SSE",
   "S", "SSW", "SW", "WSW", "W", "WNW", "NW", "NNW"]

/-- `deg_to_cardinal`: `None` in, `None` out; otherwise
`dirs[int((deg % 360) / 22.5 + 0.5) % 16]`.  A float NaN argument (also
mapped to `None` by the source) has no rational counterpart and is covered
by the `none` case. -/
def deg_to_cardinal (deg : Option ℚ) : Option String :=
  deg.map fun d =>
    DIRS.getD ((pytrunc (pymod d 360 / mkRat 225 10 + mkRat 1 2) % 16).toNat) "N"

/-- `safe_float`: the feed's missing-value sentinel `"MM"` and the empty
string map to `None`; otherwise `float(x)`, with a failed conversion
caught and mapped to `None`.  (The `None`-input case of the source is
unreachable from its call sites.) -/
def safe_float (x : String) : Option ℚ :=
  if x = "MM" ∨ x = "" then Option.none else parseFloat? x

/-- `m_to_ft`: `round(x_m * FT_PER_M, 2)`, `None` passed through. -/
def m_to_ft (x_m : Option ℚ) : Option ℚ :=
  x_m.map fun x => pyRound 2 (x * FT_PER_M)

/-- `round_1`: `round(float(x), 1)`, `None` passed through. -/
def round_1 (x : Option ℚ) : Option ℚ :=
  x.map fun q => pyRound 1 q

/-- `_parse_fixed_width_line`: strip and split on whitespace runs. -/
def parse_fixed_width_line (line : String) : List String :=
  (line.data.splitOnP Char.isWhitespace).filterMap fun cs =>
    if cs.isEmpty then Option.none else some (String.mk cs)

/-- Python `ln.startswith("#")`, decided on the character list. -/
def startsWithHash (ln : String) : Bool :=
  match ln.data with
  | '#' :: _ => true
  | _ => false

/-- `_fetch_last_data_line` after the HTTP part: drop empty lines and lines
starting with `#`, then take the first remaining line (the source comments
"Files are reverse-chron; newest is first"). -/
def fetch_last_data_line (lines : List String) : Option String :=
  (lines.filter fun ln => ln != "" && !startsWithHash ln).head?

/-- Python dict assignment `row[k] = v`. -/
def dictSet (row : Row) (k : String) (v : Val) : Row :=
  (k, v) :: row.filter fun p => p.1 != k

/-- Store an optional float the way the source stores it: `None` when
absent. -/
def optNum : Option ℚ → Val
  | Option.none => Val.none
  | some q => Val.num q

/-- Store an optional string the way the source stores it. -/
def optStr : Option String → Val
  | Option.none => Val.none
  | some s => Val.str s

/-- Errors a run of `fetch_and_write.py` can abort with.  `valueError`
models the `ValueError` of `int()` on a non-integer column; `fetchError`
stands for the `requests` exceptions of a failed HTTP fetch (raised by
`raise_for_status`, outside the parsing model). -/
inductive PyErr where
  | valueError
  | fetchError
deriving DecidableEq, Repr

/-- The standard-feed branch of `fetch_latest_observation` (source lines
guarded by `if std_line:` and `len(parts) >= 11`): parse the first five
columns as ints — `int()` raising `ValueError` on failure — and merge the
timestamp, wave, period and wind fields into the result dict. -/
def parse_std_line (result : Row) (ln : String) : Except PyErr Row :=
  let parts := parse_fixed_width_line ln
  if parts.length ≥ 11 then
    match (parts.take 5).mapM parseInt? with
    | some [yr, mo, dy, hh, mn] =>
      let wdir := safe_float (parts.getD 5 "")
      let wspd := safe_float (parts.getD 6 "")
      let wvht_m := safe_float (parts.getD 8 "")
      let dpd := safe_float (parts.getD 9 "")
      let mwd := if parts.length > 11 then safe_float (parts.getD 11 "") else Option.none
      let r := dictSet result "timestamp_utc"
        (Val.str (to_iso_utc (if yr < 100 then 2000 + yr else yr) mo dy hh mn))
      let r := dictSet r "wave_height_ft" (optNum (round_1 (m_to_ft wvht_m)))
      let r := dictSet r "dominant_period_s" (optNum (round_1 dpd))
      let wind_speed_kt : Option ℚ :=
        wspd.map fun w => (roundHalfEven (w * mkRat 194384 100000) : ℚ)
      let r := dictSet r "wind_dir_deg" (optNum wdir)
      let r := dictSet r "wind_speed_kt" (optNum wind_speed_kt)
      let r := dictSet r "wind_direction" (optStr (deg_to_cardinal wdir))
      let r := dictSet r "mean_wave_dir_deg" (optNum mwd)
      .ok r
    | _ => .error .valueError
  else .ok result

/-- The spectral-feed branch of `fetch_latest_observation` (guarded by
`if spec_line:` and `len(parts) >= 10`): merge swell height/period, fall
back to the spectral total wave height and tail MWD when the standard feed
left them unset. -/
def parse_spec_line (result : Row) (ln : String) : Row :=
  let parts := parse_fixed_width_line ln
  if parts.length ≥ 10 then
    let wvht_m := safe_float (parts.getD 5 "")
    let swh_m := safe_float (parts.getD 6 "")
    let swp_s := safe_float (parts.getD 7 "")
    let mwd := safe_float ((parts.getLast?).getD "")
    let r := dictSet result "swell_height_ft" (optNum (round_1 (m_to_ft swh_m)))
    let r := dictSet r "swell_period_s" (optNum (round_1 swp_s))
    let r :=
      if r.lookup "wave_height_ft" = Option.none
          ∨ r.lookup "wave_height_ft" = some Val.none then
        dictSet r "wave_height_ft" (optNum (round_1 (m_to_ft wvht_m)))
      else r
    if (r.lookup "mean_wave_dir_deg").getD Val.none = Val.none ∧ mwd ≠ Option.none then
      dictSet r "mean_wave_dir_deg" (optNum mwd)
    else r
  else result

/-- `fetch_latest_observation`: combine the newest line of the
`<station>.txt` and `<station>.spec` feeds (each feed given as its
response body split into lines) into one observation dict.  There is no
failure path for missing or empty feeds: each branch is simply skipped and
a partial dict is returned. -/
def fetch_latest_observation (station : String) (stdLines specLines : List String) :
    Except PyErr Row := do
  let std_line := fetch_last_data_line stdLines
  let spec_line := fetch_last_data_line specLines
  let result : Row := [("station_id", Val.str station)]
  let result ← match std_line with
    | Option.none => pure result
    | some ln => parse_std_line result ln
  let result := match spec_line with
    | Option.none => result
    | some ln => parse_spec_line result ln
  return result

/-- `build_row`: the values of `fields` in order, `obs.get(key)` giving
`None` (here: `Option.none`) for an absent key. -/
def build_row (fields : List String) (obs : Row) : List (Option Val) :=
  fields.map fun key => obs.lookup key

/-- `any_alerts_for_row`: the three rule flags, in the order main iterates
them. -/
def any_alerts_for_row (row_dict : Row) : List (String × Bool) :=
  [("Longboard", Rules.longboard_ok row_dict),
   ("Shortboard", Rules.shortboard_ok row_dict),
   ("Short Period", Rules.short_period_ok row_dict)]

/-- One spreadsheet write issued by `main`.  The status message text
(which embeds the wall-clock time) is outside the model; only the target
tab is recorded. -/
inductive Write where
  | appendRaw (row : List (Option Val))
  | appendAlert (tab : String) (row : List (Option Val))
  | status (tab : String)
deriving DecidableEq, Repr

/-- Match totals accumulated by `main` (`total_matches`). -/
structure Totals where
  longboard : ℕ
  shortboard : ℕ
  shortPeriod : ℕ
deriving DecidableEq, Repr

def Totals.get (t : Totals) : String → ℕ
  | "Longboard" => t.longboard
  | "Shortboard" => t.shortboard
  | "Short Period" => t.shortPeriod
  | _ => 0

def Totals.bump (t : Totals) (name : String) : Totals :=
  match name with
  | "Longboard" => { t with longboard := t.longboard + 1 }
  | "Shortboard" => { t with shortboard := t.shortboard + 1 }
  | "Short Period" => { t with shortPeriod := t.shortPeriod + 1 }
  | _ => t

/-- The `for name, hit in flags.items()` loop of `main`: for each matched
rule append the row to that rule's alert tab and bump its total. -/
def alert_fold (row : List (Option Val)) (t : Totals) :
    List (String × Bool) → List Write × Totals
  | [] => ([], t)
  | (name, hit) :: rest =>
    if hit then
      match ALERT_TABS.lookup name with
      | some tab =>
        (Write.appendAlert tab row :: (alert_fold row (t.bump name) rest).1,
         (alert_fold row (t.bump name) rest).2)
      | Option.none => alert_fold row t rest
    else alert_fold row t rest

/-- The per-station body of `main`'s loop, on a successfully fetched
observation: enforce `station_id`, re-round an existing wave height,
append the row to the base tab, and append it to each alert tab whose rule
matched, bumping that rule's total. -/
def process_station (fields : List String) (station : String) (obs0 : Row)
    (t : Totals) : List Write × Totals :=
  let obs1 := dictSet obs0 "station_id" (Val.str station)
  let obs :=
    match obs1.lookup "wave_height_ft" with
    | some (Val.num q) => dictSet obs1 "wave_height_ft" (optNum (round_1 (some q)))
    | _ => obs1
  let row := build_row fields obs
  let fold := alert_fold row t (any_alerts_for_row obs)
  (Write.appendRaw row :: fold.1, fold.2)

/-- The station loop of `main`: `fetch` stands for
`fetch_latest_observation` including its network part, so a per-station
failure surfaces as an `Except.error`.  The loop body has no exception
handler in the source, so an error propagates and ends the run. -/
def run_loop (fetch : String → Except PyErr Row) (fields : List String) :
    List String → Totals → Except PyErr (List Write × Totals)
  | [], t => .ok ([], t)
  | s :: rest, t =>
    match fetch s with
    | .error e => .error e
    | .ok obs0 =>
      match run_loop fetch fields rest (process_station fields s obs0 t).2 with
      | .error e => .error e
      | .ok (ws', t'') => .ok ((process_station fields s obs0 t).1 ++ ws', t'')

/-- The post-loop status pass of `main`: a status line on each alert tab
whose match total is zero. -/
def status_writes (t : Totals) : List Write :=
  ALERT_TABS.filterMap fun p =>
    if t.get p.1 = 0 then some (Write.status p.2) else Option.none

/-- `main` after config and tab setup: run the station loop, then the
status pass.  The write log is returned in issue order. -/
def main_run (fetch : String → Except PyErr Row) (fields : List String)
    (stations : List String) : Except PyErr (List Write) :=
  match run_loop fetch fields stations ⟨0, 0, 0⟩ with
  | .error e => .error e
  | .ok (ws, t) => .ok (ws ++ status_writes t)

/-- Drop one leading comment marker from a line's characters. -/
def stripHash : List Char → List Char
  | '#' :: rest => rest
  | cs => cs

/-- The year/month/day/hour/minute header fields named by the spec. -/
def SPEC_DATE_FIELDS : List String := ["YY", "MM", "DD", "hh", "mm"]

/-- Definition following the spec's words, for comparison with
`fetch_last_data_line`: a header row is one containing all of the
year/month/day/hour/minute fields, compared case-insensitively after
stripping a leading comment marker. -/
def spec_is_header_row (ln : String) : Bool :=
  let toks := parse_fixed_width_line (String.mk (stripHash ln.data))
  SPEC_DATE_FIELDS.all fun f =>
    toks.any fun t => t.data.map Char.toLower = f.data.map Char.toLower

/-- Definition following the spec's words: a row whose first five columns
all parse as numeric. -/
def spec_first_five_numeric (ln : String) : Bool :=
  let toks := parse_fixed_width_line ln
  decide (toks.length ≥ 5) && (toks.take 5).all fun t => (parseFloat? t).isSome

/-- Definition following the spec's words: locate the header row, then
select, as the most recent reading, the first row after the header whose
first five columns are all numeric. -/
def spec_select_most_recent (lines : List String) : Option String :=
  match lines.findIdx? spec_is_header_row with
  | Option.none => Option.none
  | some i => (lines.drop (i + 1)).find? spec_first_five_numeric

/-- Whether a write appends a matching row to the given alert tab. -/
def Write.isAlertFor (tab : String) : Write → Bool
  | .appendAlert t _ => t == tab
  | _ => false

/-- Whether a write is a status line. -/
def Write.isStatus : Write → Bool
  | .status _ => true
  | _ => false

/-- Whether a finished run's write log contains a status line for the
given tab. -/
def has_status (tab : String) : Except PyErr (List Write) → Bool
  | .ok ws => ws.any fun w =>
      match w with
      | .status t => t == tab
      | _ => false
  | .error _ => false

end WaveWatchr.FetchAndWrite

namespace WaveWatchr.AlertFromSheet
/-! Embedding of the rule thresholds and the Short-Period filter of
`src/alert_from_sheet.py`, per row.  `pd.to_numeric(..., errors="coerce")`
turns an unparseable cell into NaN, and both a pandas `>=` comparison and
`_between_dir` treat NaN as no-match, so a cell is embedded as `Option ℚ`
with `none` for NaN/missing. -/

def DIR_MIN : ℚ := 25
def DIR_MAX : ℚ := 160

def SHORTPERIOD_MIN_WVHT : ℚ := 3

/-- `alert_from_sheet._between_dir`: `pd.isna(deg)` is `False`, else
`deg >= lo and deg <= hi`. -/
def between_dir (deg : Option ℚ) (lo hi : ℚ) : Bool :=
  match deg with
  | Option.none => false
  | some d => decide (d ≥ lo) && decide (d ≤ hi)

/-- The row predicate of `alert_from_sheet._filter_shortperiod`'s mask:
`wvht_ft >= SHORTPERIOD_MIN_WVHT` (NaN compares false) conjoined with the
direction window test on `mwd_deg`. -/
def filter_shortperiod_mask (wvht_ft mwd_deg : Option ℚ) : Bool :=
  (wvht_ft.elim false fun h => decide (h ≥ SHORTPERIOD_MIN_WVHT))
    && between_dir mwd_deg DIR_MIN DIR_MAX

end WaveWatchr.AlertFromSheet

namespace WaveWatchr

/-! ## Claim C1 — Short-Period threshold -/

/-- Claim C1, counterexample: the observation row with total wave height
exactly 3.0 ft and direction 90° (inside the [25,160] window) resolves its
height to 3.0 and its direction passes the window test, yet
`is_short_period_all` does not match — the source compares with a strict
`>` — refuting the claimed inclusive `≥ 3.0` threshold. -/
theorem C1_counterexample :
    Rules.get_num [("wave_height_ft", Val.num 3), ("mean_wave_dir_deg", Val.num 90)]
      ["wave_height_ft", "WVHT_ft", "WVHT"] = some 3
    ∧ Rules.deg_in_window (some 90) Rules.DIR_MIN Rules.DIR_MAX = true
    ∧ Rules.is_short_period_all
        [("wave_height_ft", Val.num 3), ("mean_wave_dir_deg", Val.num 90)] = false := by
  decide

/-- Claim C1, amended: `rules.is_short_period_all` matches exactly when the
resolved total wave height is *strictly* greater than 3.0 ft and the
resolved direction lies in the [25,160] window (so a row at exactly 3.0 ft
does not match), while the sheet-side filter
`alert_from_sheet._filter_shortperiod` uses the inclusive `≥ 3.0`. -/
theorem C1_short_period_threshold :
    (∀ row : Row,
      Rules.is_short_period_all row = true ↔
        (∃ h, Rules.get_num row ["wave_height_ft", "WVHT_ft", "WVHT"] = some h
            ∧ Rules.SP_MIN_WVHT_FT < h)
          ∧ Rules.deg_in_window (Rules.mean_wave_dir_deg row)
              Rules.DIR_MIN Rules.DIR_MAX = true)
    ∧ (∀ wvht mwd : Option ℚ,
      AlertFromSheet.filter_shortperiod_mask wvht mwd = true ↔
        (∃ h, wvht = some h ∧ AlertFromSheet.SHORTPERIOD_MIN_WVHT ≤ h)
          ∧ AlertFromSheet.between_dir mwd
              AlertFromSheet.DIR_MIN AlertFromSheet.DIR_MAX = true) := by
  constructor
  · intro row
    unfold Rules.is_short_period_all
    cases h : Rules.get_num row ["wave_height_ft", "WVHT_ft", "WVHT"] with
    | none => simp [h]
    | some q => simp [h, gt_iff_lt]
  · intro wvht mwd
    unfold AlertFromSheet.filter_shortperiod_mask
    cases wvht with
    | none => simp
    | some q => simp [ge_iff_le]

/-! ## Claim C7 — alias priority in field resolution -/

/-- Claim C7: on any row binding `swell_height_ft` to 2.0 and
`wave_height_ft` to 5.0, the height resolver used by the Longboard and
Shortboard rules returns 2.0 (the swell value, not the general wave
value), and on any row binding `swell_period_s` the period resolver
returns that swell period regardless of any dominant-period binding. -/
theorem C7_field_resolution_prefers_swell :
    ∀ row : Row, row.lookup "swell_height_ft" = some (Val.num 2) →
      row.lookup "wave_height_ft" = some (Val.num 5) →
      Rules.swell_height_ft row = some 2
        ∧ ∀ p : ℚ, row.lookup "swell_period_s" = some (Val.num p) →
            Rules.swell_period_s row = some p := by
  intro row h1 _h2
  constructor
  · unfold Rules.swell_height_ft
    simp [Rules.get_num, h1, pyfloat]
  · intro p hp
    unfold Rules.swell_period_s
    simp [Rules.get_num, hp, pyfloat]

/-- Claim C7, witness at a concrete row carrying both heights and both
periods. -/
theorem C7_witness :
    Rules.swell_height_ft
        [("swell_height_ft", Val.num 2), ("wave_height_ft", Val.num 5),
         ("swell_period_s", Val.num 14), ("dominant_period_s", Val.num 8)] = some 2
    ∧ Rules.swell_period_s
        [("swell_height_ft", Val.num 2), ("wave_height_ft", Val.num 5),
         ("swell_period_s", Val.num 14), ("dominant_period_s", Val.num 8)] = some 14 :=
  ⟨(C7_field_resolution_prefers_swell _ (by decide) (by decide)).1,
   (C7_field_resolution_prefers_swell _ (by decide) (by decide)).2 14 (by decide)⟩

/-! ## Claim C8 — rule evaluation is total and degrades to no-match -/

/-- Claim C8: rule evaluation is total (each rule is a Lean function into
`Bool`), and whenever a required field resolves to nothing — no alias
present, non-empty and parseable — the rule returns `false` rather than
an error: an unresolved period, height or direction forces both
long-period rules to `false`, and an unresolved total wave height or mean
direction forces the Short-Period rule to `false`. -/
theorem C8_rules_degrade_to_no_match :
    ∀ row : Row,
      ((Rules.swell_period_s row = Option.none
          ∨ Rules.swell_height_ft row = Option.none
          ∨ Rules.swell_dir_deg row = Option.none) →
        Rules.is_long_period_longboard row = false
          ∧ Rules.is_long_period_shortboard row = false)
      ∧ ((Rules.get_num row ["wave_height_ft", "WVHT_ft", "WVHT"] = Option.none
          ∨ Rules.mean_wave_dir_deg row = Option.none) →
        Rules.is_short_period_all row = false) := by
  intro row
  constructor
  · rintro (h | h | h) <;>
      simp [Rules.is_long_period_longboard, Rules.is_long_period_shortboard, h,
        Rules.deg_in_window]
  · rintro (h | h) <;>
      simp [Rules.is_short_period_all, h, Rules.deg_in_window]

/-- Claim C8, witness: a row whose only period alias holds the non-numeric
string "N/A" makes the Longboard rule return `false`, and the empty row
makes the Short-Period rule return `false`. -/
theorem C8_witness :
    Rules.is_long_period_longboard [("swell_period_s", Val.str "N/A")] = false
    ∧ Rules.is_short_period_all [] = false :=
  ⟨((C8_rules_degrade_to_no_match [("swell_period_s", Val.str "N/A")]).1
      (Or.inl (by decide))).1,
   (C8_rules_degrade_to_no_match []).2 (Or.inl (by decide))⟩

/-! ## Claim C10 — Shortboard matches are Longboard matches -/

/-- Claim C10: whenever `is_long_period_shortboard` returns `true`,
`is_long_period_longboard` returns `true` as well: both resolve the same
period, height and direction fields, share the 13.0 s period threshold and
the direction window, and the Shortboard height threshold (1.6 ft)
dominates the Longboard one (0.7 ft). -/
theorem C10_shortboard_implies_longboard :
    ∀ row : Row, Rules.is_long_period_shortboard row = true →
      Rules.is_long_period_longboard row = true := by
  intro row h
  unfold Rules.is_long_period_shortboard at h
  unfold Rules.is_long_period_longboard
  simp only [Bool.and_eq_true] at h ⊢
  obtain ⟨⟨hp, hh⟩, hd⟩ := h
  refine ⟨⟨?_, ?_⟩, hd⟩
  · cases hps : Rules.swell_period_s row with
    | none => rw [hps] at hp; simp at hp
    | some p =>
      rw [hps] at hp
      simp only [Option.elim, decide_eq_true_eq, ge_iff_le] at hp ⊢
      calc Rules.LP_LONGBOARD_MIN_PERIOD_S ≤ Rules.LP_SHORTBOARD_MIN_PERIOD_S := by decide
      _ ≤ p := hp
  · cases hhs : Rules.swell_height_ft row with
    | none => rw [hhs] at hh; simp at hh
    | some ht =>
      rw [hhs] at hh
      simp only [Option.elim, decide_eq_true_eq, ge_iff_le] at hh ⊢
      calc Rules.LP_LONGBOARD_MIN_HEIGHT_FT ≤ Rules.LP_SHORTBOARD_MIN_HEIGHT_FT := by decide
      _ ≤ ht := hh

/-- Claim C10, witness at a concrete Shortboard-matching row. -/
theorem C10_witness :
    Rules.is_long_period_shortboard
        [("swell_period_s", Val.num 14), ("swell_height_ft", Val.num 2),
         ("mean_wave_dir_deg", Val.num 90)] = true
    ∧ Rules.is_long_period_longboard
        [("swell_period_s", Val.num 14), ("swell_height_ft", Val.num 2),
         ("mean_wave_dir_deg", Val.num 90)] = true :=
  ⟨by decide, C10_shortboard_implies_longboard _ (by decide)⟩

/-! ## Shared evaluation lemmas -/

/-- Python `round` is the identity on integers. -/
theorem roundHalfEven_intCast (n : ℤ) : roundHalfEven (n : ℚ) = n := by
  unfold roundHalfEven
  rw [Int.floor_intCast]
  norm_num

/-- Python `round` sends an exact half to the even neighbour. -/
theorem roundHalfEven_int_add_half (n : ℤ) :
    roundHalfEven ((n : ℚ) + 1/2) = if 2 ∣ n then n else n + 1 := by
  unfold roundHalfEven
  have hfl : ⌊(n : ℚ) + 1/2⌋ = n := by
    rw [Int.floor_int_add]
    norm_num
  rw [hfl]
  norm_num

/-! ## Claim C9 — degrees to 16-point compass -/

/-- Claim C9: for every bearing, `deg_to_cardinal` returns the entry of
the ordered 16-point list at index `⌊deg / 22.5 + 1/2⌋ mod 16` — divide by
22.5, round to the nearest integer with ties rounding up, reduce modulo
16 — and in particular 0° maps to "N", 22.5° maps to "NNE" (the tie rounds
up), and 360° wraps to "N". -/
theorem C9_deg_to_cardinal_formula :
    (∀ d : ℚ, FetchAndWrite.deg_to_cardinal (some d)
      = some (FetchAndWrite.DIRS.getD ((⌊d / (45/2) + 1/2⌋ % 16).toNat) "N"))
    ∧ FetchAndWrite.deg_to_cardinal (some 0) = some "N"
    ∧ FetchAndWrite.deg_to_cardinal (some (45/2)) = some "NNE"
    ∧ FetchAndWrite.deg_to_cardinal (some 360) = some "N" := by
  have hc : (mkRat 225 10 : ℚ) = 45/2 := by
    rw [Rat.mkRat_eq_divInt, Rat.divInt_eq_div]
    norm_num
  have hhalf : (mkRat 1 2 : ℚ) = 1/2 := by
    rw [Rat.mkRat_eq_divInt, Rat.divInt_eq_div]
    norm_num
  have key : ∀ d : ℚ, FetchAndWrite.deg_to_cardinal (some d)
      = some (FetchAndWrite.DIRS.getD ((⌊d / (45/2) + 1/2⌋ % 16).toNat) "N") := by
    intro d
    unfold FetchAndWrite.deg_to_cardinal
    simp only [Option.map_some']
    have hidx : (pytrunc (pymod d 360 / mkRat 225 10 + mkRat 1 2) % 16).toNat
        = (⌊d / (45/2) + 1/2⌋ % 16).toNat := by
      have hmodeq : pymod d 360 = d - 360 * (⌊d / 360⌋ : ℚ) := rfl
      have hmodnn : 0 ≤ pymod d 360 := by
        rw [hmodeq]
        have h1 : (⌊d / 360⌋ : ℚ) ≤ d / 360 := Int.floor_le _
        nlinarith
      have harg : pymod d 360 / mkRat 225 10 + mkRat 1 2
          = d / (45/2) + 1/2 - ((16 * ⌊d / 360⌋ : ℤ) : ℚ) := by
        rw [hmodeq, hc, hhalf]
        push_cast
        ring
      have hargnn : 0 ≤ pymod d 360 / mkRat 225 10 + mkRat 1 2 := by
        rw [hc, hhalf]
        have h2 : 0 ≤ pymod d 360 / (45/2 : ℚ) := by positivity
        linarith
      rw [pytrunc, if_pos hargnn, harg, Int.floor_sub_int]
      omega
    rw [hidx]
  refine ⟨key, ?_, ?_, ?_⟩
  · rw [key 0]
    have h0 : ⌊(0 : ℚ) / (45/2) + 1/2⌋ = 0 := by
      apply Int.floor_eq_iff.mpr
      norm_num
    rw [h0]
    rfl
  · rw [key (45/2)]
    have h1 : ⌊(45/2 : ℚ) / (45/2) + 1/2⌋ = 1 := by
      apply Int.floor_eq_iff.mpr
      norm_num
    rw [h1]
    rfl
  · rw [key 360]
    have h2 : ⌊(360 : ℚ) / (45/2) + 1/2⌋ = 16 := by
      apply Int.floor_eq_iff.mpr
      norm_num
    rw [h2]
    rfl

/-! ## Claim C2 — meter-to-feet conversion and rounding -/

/-- The meter value `31250/82021` times the conversion factor is exactly
1.25 ft. -/
theorem ft_product_at_125 :
    (mkRat 31250 82021 : ℚ) * FetchAndWrite.FT_PER_M = 5/4 := by
  have hq : (mkRat 31250 82021 : ℚ) = 31250 / 82021 := by
    rw [Rat.mkRat_eq_divInt, Rat.divInt_eq_div]
    norm_num
  have hft : FetchAndWrite.FT_PER_M = 328084 / 100000 := by
    unfold FetchAndWrite.FT_PER_M
    rw [Rat.mkRat_eq_divInt, Rat.divInt_eq_div]
    norm_num
  rw [hq, hft]
  norm_num

/-- The conversion pipeline at a product of exactly 1.25 ft stores 1.2. -/
theorem round_1_m_to_ft_at_125 :
    FetchAndWrite.round_1 (FetchAndWrite.m_to_ft (some (mkRat 31250 82021)))
      = some (6/5) := by
  have h2 : FetchAndWrite.m_to_ft (some (mkRat 31250 82021)) = some (5/4) := by
    unfold FetchAndWrite.m_to_ft pyRound
    rw [Option.map_some', ft_product_at_125]
    have h125 : (5/4 : ℚ) * 10 ^ 2 = ((125 : ℤ) : ℚ) := by norm_num
    rw [h125, roundHalfEven_intCast]
    norm_num
  rw [h2]
  unfold FetchAndWrite.round_1 pyRound
  rw [Option.map_some']
  have h12 : (5/4 : ℚ) * 10 ^ 1 = ((12 : ℤ) : ℚ) + 1/2 := by norm_num
  rw [h12, roundHalfEven_int_add_half]
  norm_num

/-- Claim C2, counterexample: for the meter input whose product in feet is
exactly 1.25, the stored one-decimal height is 1.2, not the claimed 1.3:
Python's `round` rounds a tie to the even neighbour, not away from zero. -/
theorem C2_counterexample :
    (mkRat 31250 82021 : ℚ) * FetchAndWrite.FT_PER_M = 5/4
    ∧ FetchAndWrite.round_1 (FetchAndWrite.m_to_ft (some (mkRat 31250 82021)))
        = some (6/5)
    ∧ (6/5 : ℚ) ≠ 13/10 :=
  ⟨ft_product_at_125, round_1_m_to_ft_at_125, by norm_num⟩

/-- Claim C2, amended: the conversion multiplies by 3.28084, `m_to_ft`
rounds to two decimals and `round_1` to one, both with Python `round`'s
round-half-to-even semantics rather than round-half-up: a value whose
second decimal is exactly 5 rounds to the even tenth, so a product of
exactly 1.25 ft is stored as 1.2, not 1.3. -/
theorem C2_round_half_to_even :
    (∀ m : ℤ, FetchAndWrite.round_1 (some (((10 * m + 5 : ℤ) : ℚ) / 100))
        = some (((if 2 ∣ m then m else m + 1 : ℤ) : ℚ) / 10))
    ∧ FetchAndWrite.round_1 (FetchAndWrite.m_to_ft (some (mkRat 31250 82021)))
        = some (6/5) := by
  constructor
  · intro m
    unfold FetchAndWrite.round_1 pyRound
    rw [Option.map_some']
    have hm : ((10 * m + 5 : ℤ) : ℚ) / 100 * 10 ^ 1 = ((m : ℚ) + 1/2) := by
      push_cast
      ring
    rw [hm, roundHalfEven_int_add_half]
    by_cases h : 2 ∣ m <;> simp [h]
  · exact round_1_m_to_ft_at_125

/-! ## Claim C3 — selection of the most recent feed row -/

/-- Claim C3, counterexample: on a feed whose header row is followed by an
all-sentinel (`MM`) row and then a numeric row, the implementation returns
the sentinel row — it takes the first non-comment line blindly — while the
spec's header-locating, numeric-testing selection returns the numeric
row. -/
theorem C3_counterexample :
    FetchAndWrite.fetch_last_data_line
        ["#YY MM DD hh mm WVHT", "MM MM MM MM MM MM", "24 01 15 12 00 1.5"]
      = some "MM MM MM MM MM MM"
    ∧ FetchAndWrite.spec_select_most_recent
        ["#YY MM DD hh mm WVHT", "MM MM MM MM MM MM", "24 01 15 12 00 1.5"]
      = some "24 01 15 12 00 1.5" := by
  decide

/-- Claim C3, amended: the parser selects the first non-empty line that
does not start with the `#` comment marker, relying on the feed being
newest-first; it performs no header-row search and no numeric-row test. -/
theorem C3_takes_first_noncomment_line :
    ∀ lines : List String,
      FetchAndWrite.fetch_last_data_line lines
        = lines.find? fun ln => ln != "" && !FetchAndWrite.startsWithHash ln := by
  intro lines
  induction lines with
  | nil => rfl
  | cons a as ih =>
    unfold FetchAndWrite.fetch_last_data_line at ih ⊢
    by_cases h : (a != "" && !FetchAndWrite.startsWithHash a) = true
    · simp [List.filter_cons, List.find?_cons, h]
    · simp only [Bool.not_eq_true] at h
      simp [List.filter_cons, List.find?_cons, h, ih]

/-! ## Claim C4 — a station failure aborts the run -/

/-- Claim C4, counterexample: with two configured stations where the first
station's fetch fails, the run ends in that error — the second station is
never processed and nothing is written — while the same fetch succeeds on
a run containing only the second station.  This refutes the claimed
log-and-skip isolation: `main`'s loop has no exception handler. -/
theorem C4_counterexample :
    FetchAndWrite.main_run
        (fun s => if s = "A" then .error .fetchError else .ok [])
        FetchAndWrite.DEFAULT_FIELDS ["A", "B"]
      = .error .fetchError
    ∧ FetchAndWrite.main_run
        (fun s => if s = "A" then .error .fetchError else .ok [])
        FetchAndWrite.DEFAULT_FIELDS ["B"]
      = .ok [FetchAndWrite.Write.appendRaw
               [Option.none, some (Val.str "B"), Option.none, Option.none,
                Option.none, Option.none, Option.none, Option.none, Option.none],
             FetchAndWrite.Write.status "Longboard Alert",
             FetchAndWrite.Write.status "Shortboard Alert",
             FetchAndWrite.Write.status "Short Period Alert"] := by
  exact ⟨rfl, rfl⟩

/-- Claim C4, amended: a fetch (or parse) failure for one station
propagates out of the station loop and aborts the whole run with that
error; the stations after the failing one are not processed and no status
rows are written.  There is no per-station log-and-continue handling in
the code. -/
theorem C4_station_failure_aborts :
    ∀ (fetch : String → Except FetchAndWrite.PyErr Row) (fields : List String)
      (s : String) (rest : List String) (e : FetchAndWrite.PyErr),
      fetch s = .error e →
      FetchAndWrite.main_run fetch fields (s :: rest) = .error e := by
  intro fetch fields s rest e h
  unfold FetchAndWrite.main_run FetchAndWrite.run_loop
  rw [h]

/-- Claim C4, witness: the abort theorem applied to a concrete two-station
run whose first fetch fails. -/
theorem C4_witness :
    FetchAndWrite.main_run
        (fun s => if s = "A" then .error .fetchError else .ok [])
        FetchAndWrite.DEFAULT_FIELDS ["A", "B"]
      = .error .fetchError :=
  C4_station_failure_aborts _ FetchAndWrite.DEFAULT_FIELDS "A" ["B"] .fetchError rfl

/-! ## Claim C5 — the parser never fails with ParseError -/

/-- Claim C5, counterexample: on feeds with no header row at all (empty
responses), `fetch_latest_observation` does not fail: it returns the
partial observation holding only the station id, refuting the claimed
`ParseError`. -/
theorem C5_counterexample :
    FetchAndWrite.fetch_latest_observation "41117" [] []
      = .ok [("station_id", Val.str "41117")] := by
  rfl

/-- Claim C5, amended: `fetch_latest_observation` raises no `ParseError`
under any of the claimed conditions: a feed with no usable line is simply
skipped, and with both feeds empty the result is the partial observation
holding only `station_id`; a standard-feed line whose first five columns
are not integers instead raises an unhandled `ValueError` from `int()`. -/
theorem C5_no_parse_error :
    (∀ station : String,
      FetchAndWrite.fetch_latest_observation station [] []
        = .ok [("station_id", Val.str station)])
    ∧ FetchAndWrite.fetch_latest_observation "41117"
        ["MM MM MM MM MM 0 0 0 0 0 0"] []
      = .error .valueError := by
  exact ⟨fun station => rfl, rfl⟩

/-! ## Claim C6 — status rows on alert tabs -/

namespace FetchAndWrite

/-- The alert-tab loop's invariant: each total grows by exactly the number
of rows appended to the corresponding alert tab, and the loop emits no
status write. -/
theorem alert_fold_count (row : List (Option Val)) (flags : List (String × Bool)) :
    ∀ t : Totals,
      (alert_fold row t flags).2.longboard
          = t.longboard + (alert_fold row t flags).1.countP (Write.isAlertFor "Longboard Alert")
        ∧ (alert_fold row t flags).2.shortboard
          = t.shortboard + (alert_fold row t flags).1.countP (Write.isAlertFor "Shortboard Alert")
        ∧ (alert_fold row t flags).2.shortPeriod
          = t.shortPeriod + (alert_fold row t flags).1.countP (Write.isAlertFor "Short Period Alert")
        ∧ (alert_fold row t flags).1.countP Write.isStatus = 0 := by
  induction flags with
  | nil => intro t; simp [alert_fold]
  | cons p rest ih =>
    intro t
    obtain ⟨name, hit⟩ := p
    cases hit with
    | false => simpa [alert_fold] using ih t
    | true =>
      by_cases h1 : name = "Longboard"
      · subst h1
        obtain ⟨ha, hb, hc, hd⟩ := ih (Totals.bump t "Longboard")
        simp only [Totals.bump] at ha hb hc hd
        simp [alert_fold, ALERT_TABS, Write.isAlertFor, Write.isStatus,
          Totals.bump, List.countP_cons, ha, hb, hc, hd]
        omega
      · by_cases h2 : name = "Shortboard"
        · subst h2
          obtain ⟨ha, hb, hc, hd⟩ := ih (Totals.bump t "Shortboard")
          simp only [Totals.bump] at ha hb hc hd
          have hlk : ALERT_TABS.lookup "Shortboard" = some "Shortboard Alert" := rfl
          simp [alert_fold, hlk, Write.isAlertFor, Write.isStatus,
            Totals.bump, List.countP_cons, ha, hb, hc, hd]
          omega
        · by_cases h3 : name = "Short Period"
          · subst h3
            obtain ⟨ha, hb, hc, hd⟩ := ih (Totals.bump t "Short Period")
            simp only [Totals.bump] at ha hb hc hd
            have hlk : ALERT_TABS.lookup "Short Period" = some "Short Period Alert" := rfl
            simp [alert_fold, hlk, Write.isAlertFor, Write.isStatus,
              Totals.bump, List.countP_cons, ha, hb, hc, hd]
            omega
          · have e1 : (name == "Longboard") = false := beq_eq_false_iff_ne.mpr h1
            have e2 : (name == "Shortboard") = false := beq_eq_false_iff_ne.mpr h2
            have e3 : (name == "Short Period") = false := beq_eq_false_iff_ne.mpr h3
            have hlk : ALERT_TABS.lookup name = Option.none := by
              simp [ALERT_TABS, List.lookup, e1, e2, e3]
            simpa [alert_fold, hlk] using ih t

/-- The per-station writes carry the same invariant: totals grow by the
alert appends, and no status line is emitted inside the loop. -/
theorem process_station_count (fields : List String) (station : String)
    (obs0 : Row) (t : Totals) :
    (process_station fields station obs0 t).2.longboard
        = t.longboard
          + (process_station fields station obs0 t).1.countP (Write.isAlertFor "Longboard Alert")
      ∧ (process_station fields station obs0 t).2.shortboard
        = t.shortboard
          + (process_station fields station obs0 t).1.countP (Write.isAlertFor "Shortboard Alert")
      ∧ (process_station fields station obs0 t).2.shortPeriod
        = t.shortPeriod
          + (process_station fields station obs0 t).1.countP (Write.isAlertFor "Short Period Alert")
      ∧ (process_station fields station obs0 t).1.countP Write.isStatus = 0 := by
  unfold process_station
  have h := alert_fold_count
    (build_row fields
      (match (dictSet obs0 "station_id" (Val.str station)).lookup "wave_height_ft" with
       | some (Val.num q) =>
         dictSet (dictSet obs0 "station_id" (Val.str station)) "wave_height_ft"
           (optNum (round_1 (some q)))
       | _ => dictSet obs0 "station_id" (Val.str station)))
    (any_alerts_for_row
      (match (dictSet obs0 "station_id" (Val.str station)).lookup "wave_height_ft" with
       | some (Val.num q) =>
         dictSet (dictSet obs0 "station_id" (Val.str station)) "wave_height_ft"
           (optNum (round_1 (some q)))
       | _ => dictSet obs0 "station_id" (Val.str station))) t
  simpa [List.countP_cons, Write.isAlertFor, Write.isStatus] using h

/-- The station loop's invariant: starting totals grow by exactly the
per-tab alert-append counts of the emitted writes, which include no status
line. -/
theorem run_loop_count (fetch : String → Except PyErr Row) (fields : List String) :
    ∀ (stations : List String) (t : Totals) (ws : List Write) (t' : Totals),
      run_loop fetch fields stations t = .ok (ws, t') →
      t'.longboard = t.longboard + ws.countP (Write.isAlertFor "Longboard Alert")
        ∧ t'.shortboard = t.shortboard + ws.countP (Write.isAlertFor "Shortboard Alert")
        ∧ t'.shortPeriod = t.shortPeriod + ws.countP (Write.isAlertFor "Short Period Alert")
        ∧ ws.countP Write.isStatus = 0 := by
  intro stations
  induction stations with
  | nil =>
    intro t ws t' h
    unfold run_loop at h
    injection h with h
    injection h with h1 h2
    subst h1; subst h2
    simp
  | cons s rest ih =>
    intro t ws t' h
    rw [run_loop] at h
    cases hf : fetch s with
    | error e =>
      simp only [hf] at h
      exact Except.noConfusion h
    | ok obs0 =>
      simp only [hf] at h
      cases hr : run_loop fetch fields rest (process_station fields s obs0 t).2 with
      | error e =>
        simp only [hr] at h
        exact Except.noConfusion h
      | ok pr =>
        obtain ⟨ws', t''⟩ := pr
        simp only [hr] at h
        injection h with h
        injection h with h1 h2
        subst h1; subst h2
        obtain ⟨ha, hb, hc, hd⟩ := process_station_count fields s obs0 t
        obtain ⟨ha', hb', hc', hd'⟩ := ih (process_station fields s obs0 t).2 ws' t'' hr
        simp only [List.countP_append]
        omega

/-- The post-loop status pass writes a status line for a tab exactly when
that rule's total is zero, and appends no alert rows. -/
theorem status_writes_spec (t : Totals) :
    (Write.status "Longboard Alert" ∈ status_writes t ↔ t.longboard = 0)
      ∧ (Write.status "Shortboard Alert" ∈ status_writes t ↔ t.shortboard = 0)
      ∧ (Write.status "Short Period Alert" ∈ status_writes t ↔ t.shortPeriod = 0)
      ∧ ∀ tab, (status_writes t).countP (Write.isAlertFor tab) = 0 := by
  have g1 : Totals.get t "Longboard" = t.longboard := rfl
  have g2 : Totals.get t "Shortboard" = t.shortboard := rfl
  have g3 : Totals.get t "Short Period" = t.shortPeriod := rfl
  unfold status_writes ALERT_TABS
  by_cases h1 : t.longboard = 0 <;> by_cases h2 : t.shortboard = 0 <;>
    by_cases h3 : t.shortPeriod = 0 <;>
      simp [g1, g2, g3, h1, h2, h3, Write.isAlertFor, List.filterMap_cons]

end FetchAndWrite

/-- Claim C6, counterexample: a successful single-station run on which the
Longboard rule matches produces no status row at all on the Longboard
Alert tab — the source writes a status line only when a rule's match total
is zero — refuting the claim that a status row is emitted to every alert
tab on every run, including runs where the rule matched. -/
theorem C6_counterexample :
    (FetchAndWrite.main_run
        (fun _ => .ok [("swell_period_s", Val.num 14), ("swell_height_ft", Val.num 2),
                       ("mean_wave_dir_deg", Val.num 90)])
        FetchAndWrite.DEFAULT_FIELDS ["41117"]).isOk = true
    ∧ FetchAndWrite.has_status "Longboard Alert"
        (FetchAndWrite.main_run
          (fun _ => .ok [("swell_period_s", Val.num 14), ("swell_height_ft", Val.num 2),
                         ("mean_wave_dir_deg", Val.num 90)])
          FetchAndWrite.DEFAULT_FIELDS ["41117"]) = false
    ∧ Rules.longboard_ok
        [("swell_period_s", Val.num 14), ("swell_height_ft", Val.num 2),
         ("mean_wave_dir_deg", Val.num 90)] = true := by
  exact ⟨rfl, rfl, rfl⟩

/-- Claim C6, amended: on a completed run the orchestrator writes a status
row to an alert tab exactly when that rule matched zero times — a tab that
received alert rows gets no status row, so rule activity, not the status
row, distinguishes a matching run; only the all-zero case yields a status
line on every tab. -/
theorem C6_status_iff_zero_matches :
    ∀ (fetch : String → Except FetchAndWrite.PyErr Row)
      (fields stations : List String) (ws : List FetchAndWrite.Write),
      FetchAndWrite.main_run fetch fields stations = .ok ws →
      ((FetchAndWrite.Write.status "Longboard Alert" ∈ ws
          ↔ ws.countP (FetchAndWrite.Write.isAlertFor "Longboard Alert") = 0)
        ∧ (FetchAndWrite.Write.status "Shortboard Alert" ∈ ws
          ↔ ws.countP (FetchAndWrite.Write.isAlertFor "Shortboard Alert") = 0)
        ∧ (FetchAndWrite.Write.status "Short Period Alert" ∈ ws
          ↔ ws.countP (FetchAndWrite.Write.isAlertFor "Short Period Alert") = 0)) := by
  intro fetch fields stations ws h
  unfold FetchAndWrite.main_run at h
  cases hr : FetchAndWrite.run_loop fetch fields stations ⟨0, 0, 0⟩ with
  | error e =>
    simp only [hr] at h
    exact Except.noConfusion h
  | ok pr =>
    obtain ⟨ws0, t⟩ := pr
    simp only [hr] at h
    injection h with h
    subst h
    obtain ⟨ha, hb, hc, hd⟩ :=
      FetchAndWrite.run_loop_count fetch fields stations ⟨0, 0, 0⟩ ws0 t hr
    obtain ⟨s1, s2, s3, s4⟩ := FetchAndWrite.status_writes_spec t
    have hnostatus : ∀ tab, FetchAndWrite.Write.status tab ∉ ws0 := by
      intro tab hmem
      have := List.countP_eq_zero.mp hd _ hmem
      simp [FetchAndWrite.Write.isStatus] at this
    refine ⟨?_, ?_, ?_⟩
    · have hcount : (ws0 ++ FetchAndWrite.status_writes t).countP
          (FetchAndWrite.Write.isAlertFor "Longboard Alert")
          = ws0.countP (FetchAndWrite.Write.isAlertFor "Longboard Alert") := by
        simp [List.countP_append, s4]
      have hmem : FetchAndWrite.Write.status "Longboard Alert"
            ∈ ws0 ++ FetchAndWrite.status_writes t ↔ t.longboard = 0 := by
        rw [List.mem_append]
        constructor
        · rintro (hm | hm)
          · exact absurd hm (hnostatus _)
          · exact s1.mp hm
        · intro hz
          exact Or.inr (s1.mpr hz)
      have e : t.longboard
          = ws0.countP (FetchAndWrite.Write.isAlertFor "Longboard Alert") := by
        simpa using ha
      rw [hmem, hcount, ← e]
    · have hcount : (ws0 ++ FetchAndWrite.status_writes t).countP
          (FetchAndWrite.Write.isAlertFor "Shortboard Alert")
          = ws0.countP (FetchAndWrite.Write.isAlertFor "Shortboard Alert") := by
        simp [List.countP_append, s4]
      have hmem : FetchAndWrite.Write.status "Shortboard Alert"
            ∈ ws0 ++ FetchAndWrite.status_writes t ↔ t.shortboard = 0 := by
        rw [List.mem_append]
        constructor
        · rintro (hm | hm)
          · exact absurd hm (hnostatus _)
          · exact s2.mp hm
        · intro hz
          exact Or.inr (s2.mpr hz)
      have e : t.shortboard
          = ws0.countP (FetchAndWrite.Write.isAlertFor "Shortboard Alert") := by
        simpa using hb
      rw [hmem, hcount, ← e]
    · have hcount : (ws0 ++ FetchAndWrite.status_writes t).countP
          (FetchAndWrite.Write.isAlertFor "Short Period Alert")
          = ws0.countP (FetchAndWrite.Write.isAlertFor "Short Period Alert") := by
        simp [List.countP_append, s4]
      have hmem : FetchAndWrite.Write.status "Short Period Alert"
            ∈ ws0 ++ FetchAndWrite.status_writes t ↔ t.shortPeriod = 0 := by
        rw [List.mem_append]
        constructor
        · rintro (hm | hm)
          · exact absurd hm (hnostatus _)
          · exact s3.mp hm
        · intro hz
          exact Or.inr (s3.mpr hz)
      have e : t.shortPeriod
          = ws0.countP (FetchAndWrite.Write.isAlertFor "Short Period Alert") := by
        simpa using hc
      rw [hmem, hcount, ← e]

/-- Claim C6, witness: the status-iff-zero characterization applied to a
concrete matching run — Longboard and Shortboard match, so their tabs get
alert rows and no status line; Short Period does not match, so its tab
gets the status line. -/
theorem C6_witness :
    (FetchAndWrite.Write.status "Longboard Alert"
        ∈ [FetchAndWrite.Write.appendRaw
             [Option.none, some (Val.str "41117"), Option.none, Option.none,
              Option.none, Option.none, some (Val.num 2), some (Val.num 14),
              Option.none],
           FetchAndWrite.Write.appendAlert "Longboard Alert"
             [Option.none, some (Val.str "41117"), Option.none, Option.none,
              Option.none, Option.none, some (Val.num 2), some (Val.num 14),
              Option.none],
           FetchAndWrite.Write.appendAlert "Shortboard Alert"
             [Option.none, some (Val.str "41117"), Option.none, Option.none,
              Option.none, Option.none, some (Val.num 2), some (Val.num 14),
              Option.none],
           FetchAndWrite.Write.status "Short Period Alert"]
      ↔ [FetchAndWrite.Write.appendRaw
             [Option.none, some (Val.str "41117"), Option.none, Option.none,
              Option.none, Option.none, some (Val.num 2), some (Val.num 14),
              Option.none],
           FetchAndWrite.Write.appendAlert "Longboard Alert"
             [Option.none, some (Val.str "41117"), Option.none, Option.none,
              Option.none, Option.none, some (Val.num 2), some (Val.num 14),
              Option.none],
           FetchAndWrite.Write.appendAlert "Shortboard Alert"
             [Option.none, some (Val.str "41117"), Option.none, Option.none,
              Option.none, Option.none, some (Val.num 2), some (Val.num 14),
              Option.none],
           FetchAndWrite.Write.status "Short Period Alert"].countP
          (FetchAndWrite.Write.isAlertFor "Longboard Alert") = 0) :=
  (C6_status_iff_zero_matches
    (fun _ => .ok [("swell_period_s", Val.num 14), ("swell_height_ft", Val.num 2),
                   ("mean_wave_dir_deg", Val.num 90)])
    FetchAndWrite.DEFAULT_FIELDS ["41117"] _ rfl).1

end WaveWatchr
